import Mathlib

/-!
Verification development for the Veo video gallery application.

The definitions below are a shallow embedding of the TypeScript source:
the video record and error types from src/types.ts, the generation
orchestrator, error classification, gallery updates and upload handler
from src/App.tsx, and the remix edit page (prompt save, mask editor,
variation counter) from the EditVideoPage component. External services
(the generation API, binary fetch, base64 conversion, URI decoding) are
modelled as oracle functions bundled in an environment record; the
fixed-interval polling loop is elided by taking the completed operation
the oracle returns for a request.
-/

set_option linter.unusedVariables false

/-- Video record from src/types.ts. -/
structure Video where
  id : String
  videoUrl : String
  title : String
  description : String
deriving DecidableEq, Repr

/-- Coarse error classification from src/types.ts. -/
inductive ErrorType where
  | api_key
  | generation_failed
  | network
  | unknown
deriving DecidableEq, Repr

/-- Error banner payload from src/types.ts. -/
structure ErrorDetails where
  title : String
  messages : List String
  type : ErrorType
deriving DecidableEq, Repr

/-- Quality tier offered by the remix editor. -/
inductive Quality where
  | fast
  | quality
deriving DecidableEq, Repr

/-- Duration tier offered by the remix editor. -/
inductive Duration where
  | short
  | medium
  | long
deriving DecidableEq, Repr

/-- Aspect choice offered by the remix editor (16:9, 9:16 or 1:1). -/
inductive Aspect where
  | sixteenNine
  | nineSixteen
  | oneOne
deriving DecidableEq, Repr

/-- JavaScript String.prototype.includes on character lists:
isPrefixList pat s decides whether pat is a prefix of s. -/
def isPrefixList : List Char → List Char → Bool
  | [], _ => true
  | _ :: _, [] => false
  | a :: as, b :: bs => a == b && isPrefixList as bs

/-- containsFrom pat s decides whether pat occurs as a contiguous run in s. -/
def containsFrom (pat : List Char) : List Char → Bool
  | [] => isPrefixList pat []
  | c :: rest => isPrefixList pat (c :: rest) || containsFrom pat rest

/-- JavaScript s.includes(pat): substring containment test. -/
def jsIncludes (s pat : String) : Bool :=
  containsFrom pat.data s.data

/-- Whitespace test used by JavaScript String.prototype.trim. -/
def isWhitespaceChar (c : Char) : Bool :=
  c == ' ' || c == '\t' || c == '\n' || c == '\r'

/-- JavaScript s.toLowerCase(): lowercase every character. -/
def jsToLower (s : String) : String :=
  String.mk (s.data.map Char.toLower)

/-- JavaScript s.trim(): drop leading and trailing whitespace. -/
def jsTrim (s : String) : String :=
  String.mk
    (((s.data.dropWhile isWhitespaceChar).reverse.dropWhile
        isWhitespaceChar).reverse)

/-- Remix generation options collected by the EditVideoPage form. -/
structure RemixOptions where
  numberOfVideos : Nat
  quality : Quality
  duration : Duration
  aspect : Aspect
deriving DecidableEq, Repr

/-- The instruction phrase appended by EditVideoPage.handleSave when the
mask is active and the edit prompt is non-blank. -/
def maskPhrase (editPrompt : String) : String :=
  "\n\nIn the highlighted area, please " ++ editPrompt ++ "."

/-- EditVideoPage.handleSave: returns the video handed to onSave. The
instruction is appended to the description exactly when the mask-active
flag is set and the trimmed edit prompt is non-empty; the saved record
carries no mask geometry, only this text. -/
def handleSave (video : Video) (editPrompt : String) (isMaskActive : Bool) :
    Video :=
  if isMaskActive && jsTrim editPrompt != "" then
    { video with description := video.description ++ maskPhrase editPrompt }
  else
    video

/-- App.handleSaveEdit prompt construction: the saved description, then
the quality suffix for the quality tier, then one of three duration
suffixes. -/
def buildRemixPrompt (description : String) (q : Quality) (d : Duration) :
    String :=
  let p := description
  let p := if q = Quality.quality then p ++ "\n\nhigh quality, cinematic, 4k"
           else p
  match d with
  | Duration.short => p ++ "\n\n(Short video, ~4 seconds)"
  | Duration.medium => p ++ "\n\n(Medium video, ~10 seconds)"
  | Duration.long => p ++ "\n\n(Long video, ~15 seconds)"

/-- Mask editor component state: a drawing-in-progress flag, the
persistent hasMask flag, and the drawn stroke points (the geometry). -/
structure MaskState where
  isDrawing : Bool
  hasMask : Bool
  path : List (Int × Int)
deriving DecidableEq, Repr

/-- VideoMaskEditor.startDrawing: begin a stroke at a point and set the
persistent hasMask flag. -/
def startDrawing (x y : Int) (s : MaskState) : MaskState :=
  { s with isDrawing := true, hasMask := true, path := s.path ++ [(x, y)] }

/-- VideoMaskEditor.draw: extend the stroke while drawing. -/
def draw (x y : Int) (s : MaskState) : MaskState :=
  if s.isDrawing then { s with path := s.path ++ [(x, y)] } else s

/-- VideoMaskEditor.stopDrawing: end the stroke. -/
def stopDrawing (s : MaskState) : MaskState :=
  if s.isDrawing then { s with isDrawing := false } else s

/-- VideoMaskEditor.clearMask: erase the canvas and clear hasMask. -/
def clearMask (s : MaskState) : MaskState :=
  { s with hasMask := false, path := [] }

/-- The save action of the edit page as a function of the mask editor
state: only the hasMask boolean reaches handleSave. -/
def editPageSave (video : Video) (editPrompt : String) (ms : MaskState) :
    Video :=
  handleSave video editPrompt ms.hasMask

/-- The full prompt pipeline for a remix: EditVideoPage.handleSave
produces the updated video, and App.handleSaveEdit builds the prompt
from its description plus quality and duration suffixes. -/
def composedPrompt (base : String) (q : Quality) (d : Duration)
    (maskActive : Bool) (instr : String) : String :=
  buildRemixPrompt
    (handleSave
      { id := "", videoUrl := "", title := "", description := base }
      instr maskActive).description
    q d

/-- The quality suffix as the spec describes it: none for fast, a fixed
phrase for quality. -/
def qualitySuffixSpec : Quality → String
  | Quality.fast => ""
  | Quality.quality => "\n\nhigh quality, cinematic, 4k"

/-- The duration suffix: one fixed phrase per tier. -/
def durationSuffixSpec : Duration → String
  | Duration.short => "\n\n(Short video, ~4 seconds)"
  | Duration.medium => "\n\n(Medium video, ~10 seconds)"
  | Duration.long => "\n\n(Long video, ~15 seconds)"

/-- The mask-gated instruction suffix as the code gates it: present
exactly when the mask is active and the instruction is non-blank after
trimming. -/
def maskSuffixSpec (maskActive : Bool) (instr : String) : String :=
  if maskActive && jsTrim instr != "" then maskPhrase instr else ""

/-- The prompt as the claim words it: base, then quality suffix, then
duration suffix, then the mask-gated instruction phrase last. -/
def claimedPrompt (base : String) (q : Quality) (d : Duration)
    (maskActive : Bool) (instr : String) : String :=
  base ++ qualitySuffixSpec q ++ durationSuffixSpec d
    ++ (if maskActive && jsTrim instr != "" then maskPhrase instr else "")

/-- A remote result handle inside a generated-video entry. -/
structure VideoFile where
  uri : String
deriving DecidableEq, Repr

/-- One result handle reported by the generation service. -/
structure GeneratedVideo where
  video : VideoFile
deriving DecidableEq, Repr

/-- The payload of a completed operation: the generatedVideos field may
be absent. -/
structure OpResponse where
  generatedVideos : Option (List GeneratedVideo)
deriving DecidableEq, Repr

/-- A completed long-running operation: the response field may be
absent. The fixed-interval polling loop of generateVideoFromText is
elided; this is the operation it ends with once done is set. -/
structure Operation where
  response : Option OpResponse
deriving DecidableEq, Repr

/-- Result of one binary fetch: HTTP-style success flag, status and
status text, and the body bytes on success. -/
structure FetchResult where
  ok : Bool
  status : Nat
  statusText : String
  body : String
deriving DecidableEq, Repr

/-- Oracle environment for the external collaborators of the
orchestrator: the generation service (request to completed operation),
the binary fetch, blob-to-base64 conversion, URI decoding, and the
credential value. -/
structure GenEnv where
  submit : String → Nat → Aspect → Operation
  fetch : String → FetchResult
  toBase64 : String → String
  decodeURI : String → String
  apiKey : String

/-- Fetch-and-convert for one result handle, as in the Promise.all body
of generateVideoFromText: decode the uri, fetch it with the key
appended, fail on a non-ok status with a Failed-to-fetch message,
otherwise convert the body to base64. -/
def fetchVideoItem (env : GenEnv) (gv : GeneratedVideo) :
    Except String String :=
  let url := env.decodeURI gv.video.uri
  let res := env.fetch (url ++ "&key=" ++ env.apiKey)
  if res.ok then Except.ok (env.toBase64 res.body)
  else
    Except.error
      ("Failed to fetch video: " ++ toString res.status ++ " "
        ++ res.statusText)

/-- Promise.all over settled outcomes: succeeds with all values when
every item succeeds, otherwise rejects with an error of a failing item. -/
def promiseAll {ε α : Type} : List (Except ε α) → Except ε (List α)
  | [] => Except.ok []
  | x :: xs =>
    match x with
    | Except.error e => Except.error e
    | Except.ok a =>
      match promiseAll xs with
      | Except.error e => Except.error e
      | Except.ok rest => Except.ok (a :: rest)

/-- generateVideoFromText from src/App.tsx: submit the request, take the
completed operation, fail with No-videos-generated when the response or
its result list is absent or empty, otherwise fetch and convert every
result handle, joining on all of them. -/
def generateVideoFromText (env : GenEnv) (prompt : String)
    (numberOfVideos : Nat) (aspect : Aspect) : Except String (List String) :=
  let operation := env.submit prompt numberOfVideos aspect
  match operation.response with
  | none => Except.error "No videos generated"
  | some r =>
    match r.generatedVideos with
    | none => Except.error "No videos generated"
    | some videos =>
      if videos.length = 0 then Except.error "No videos generated"
      else promiseAll (videos.map (fetchVideoItem env))

/-- The fallback error banner: credential/quota problem. -/
def apiKeyDetails : ErrorDetails :=
  { title := "Generation Failed"
    messages :=
      ["Veo 3 is only available on the Paid Tier.",
       "Please select your Cloud Project to get started."]
    type := ErrorType.api_key }

/-- Banner for a generation that produced nothing. -/
def genFailedDetails : ErrorDetails :=
  { title := "Generation Failed"
    messages :=
      ["The model did not return any video.",
       "This could be due to your prompt. Please try a different prompt."]
    type := ErrorType.generation_failed }

/-- Banner for a failed download of a generated video. -/
def networkDetails : ErrorDetails :=
  { title := "Download Failed"
    messages :=
      ["The generated video could not be downloaded.",
       "Please check your network connection and try again."]
    type := ErrorType.network }

/-- The catch block of generateAndAddNewVideos: classify a caught value
by message substring; none models a thrown non-Error value, which keeps
the default credential banner. -/
def classifyError : Option String → ErrorDetails
  | none => apiKeyDetails
  | some msg =>
    if jsIncludes msg "No videos generated" then genFailedDetails
    else if jsIncludes msg "Failed to fetch video" then networkDetails
    else apiKeyDetails

/-- The component state of App that the claims touch. -/
structure AppState where
  videos : List Video
  playingVideo : Option Video
  editingVideo : Option Video
  isSaving : Bool
  searchQuery : String
  generationError : Option ErrorDetails
deriving Repr

/-- The record construction in generateAndAddNewVideos: one gallery
record per base64 source, titled with a one-based index over the
requested count when more than one was requested. -/
def buildNewVideos (idGen : Nat → String) (baseTitle baseDescription : String)
    (numberOfVideos : Nat) (videoObjects : List String) : List Video :=
  videoObjects.enum.map fun p =>
    { id := idGen p.1
      title :=
        if numberOfVideos > 1 then
          baseTitle ++ " (" ++ toString (p.1 + 1) ++ "/"
            ++ toString numberOfVideos ++ ")"
        else baseTitle
      description := baseDescription
      videoUrl := "data:video/mp4;base64," ++ p.2 }

/-- generateAndAddNewVideos from src/App.tsx as a state transition:
clear the error and set the saving flag, run the orchestrator, on
success prepend the new records and play the first, on any failure set
the classified error banner and leave the gallery unchanged; the saving
flag is cleared in every outcome. -/
def generateAndAddNewVideos (env : GenEnv) (idGen : Nat → String)
    (prompt : String) (numberOfVideos : Nat)
    (baseTitle baseDescription : String) (aspect : Aspect)
    (st : AppState) : AppState :=
  let st0 := { st with isSaving := true, generationError := none }
  match generateVideoFromText env prompt numberOfVideos aspect with
  | Except.error msg =>
    { st0 with
        generationError := some (classifyError (some msg))
        isSaving := false }
  | Except.ok videoObjects =>
    if videoObjects.length = 0 then
      { st0 with
          generationError :=
            some (classifyError (some "Video generation returned no data."))
          isSaving := false }
    else
      let newVideos :=
        buildNewVideos idGen baseTitle baseDescription numberOfVideos
          videoObjects
      { st0 with
          videos := newVideos ++ st0.videos
          playingVideo := newVideos.head?
          isSaving := false }

/-- App.handleSaveEdit: close the edit page, build the remix prompt from
the (already mask-amended) description plus quality and duration
suffixes, and generate numberOfVideos variations titled from the
original video. -/
def handleSaveEdit (env : GenEnv) (idGen : Nat → String)
    (originalVideo : Video) (options : RemixOptions) (st : AppState) :
    AppState :=
  let st1 := { st with editingVideo := none }
  let promptText :=
    buildRemixPrompt originalVideo.description options.quality
      options.duration
  generateAndAddNewVideos env idGen promptText options.numberOfVideos
    ("Remix of \"" ++ originalVideo.title ++ "\"")
    originalVideo.description options.aspect st1

/-- One press of the variation stepper in the edit page. -/
inductive VidAction where
  | inc
  | dec
deriving DecidableEq, Repr

/-- incrementVideos and decrementVideos from EditVideoPage: clamp at 4
above and 1 below. -/
def applyVidAction (v : Int) : VidAction → Int
  | VidAction.inc => min (v + 1) 4
  | VidAction.dec => max (v - 1) 1

/-- filteredVideos from src/App.tsx: keep the records whose lowercased
title or description includes the lowercased search query. -/
def filteredVideos (searchQuery : String) (videos : List Video) :
    List Video :=
  videos.filter fun video =>
    jsIncludes (jsToLower video.title) (jsToLower searchQuery)
      || jsIncludes (jsToLower video.description) (jsToLower searchQuery)

/-- A file picked in the upload input; only its name reaches the
record. -/
structure UploadedFile where
  name : String
deriving DecidableEq, Repr

/-- The regex replace in handleFileChange: drop a final dot followed by
one or more characters none of which is a dot or a slash; otherwise the
name is unchanged. -/
def stripExtension (name : String) : String :=
  let r := name.data.reverse
  let ext := r.takeWhile fun c => !(c == '.') && !(c == '/')
  match r.drop ext.length with
  | '.' :: pre => if ext.isEmpty then name else String.mk pre.reverse
  | _ => name

/-- handleFileChange from src/App.tsx: with no file selected the state
is unchanged; otherwise prepend one record titled with the extension-
stripped filename and a fixed description, with the object URL the
browser minted for the blob. -/
def handleFileChange (newId : String) (objectUrl : String)
    (file : Option UploadedFile) (st : AppState) : AppState :=
  match file with
  | none => st
  | some f =>
    let newVideo : Video :=
      { id := newId
        title := stripExtension f.name
        description := "A user-uploaded video."
        videoUrl := objectUrl }
    { st with videos := newVideo :: st.videos }

/-- A concrete gallery record used by closed witness statements. -/
def sampleVideo : Video :=
  { id := "v1", videoUrl := "blob:sample", title := "Sunset",
    description := "A sunset over the sea." }

/-- A concrete starting app state used by closed witness statements. -/
def initialState : AppState :=
  { videos := [sampleVideo], playingVideo := none, editingVideo := none,
    isSaving := false, searchQuery := "", generationError := none }

/-- Oracle environment whose job completes with one result handle whose
fetch fails with HTTP 404. -/
def envFetchFail : GenEnv :=
  { submit := fun _ _ _ =>
      { response :=
          some { generatedVideos := some [{ video := { uri := "u0" } }] } }
    fetch := fun _ =>
      { ok := false, status := 404, statusText := "Not Found", body := "" }
    toBase64 := fun s => s
    decodeURI := fun s => s
    apiKey := "KEY" }

/-- Oracle environment whose job completes with an empty result list. -/
def envNoResults : GenEnv :=
  { submit := fun _ _ _ => { response := some { generatedVideos := some [] } }
    fetch := fun _ =>
      { ok := true, status := 200, statusText := "OK", body := "" }
    toBase64 := fun s => s
    decodeURI := fun s => s
    apiKey := "KEY" }

/-- Oracle environment whose job completes with a single result handle
that fetches successfully, whatever count was requested. -/
def envOne : GenEnv :=
  { submit := fun _ _ _ =>
      { response :=
          some { generatedVideos := some [{ video := { uri := "u1" } }] } }
    fetch := fun _ =>
      { ok := true, status := 200, statusText := "OK", body := "BODY" }
    toBase64 := fun s => s
    decodeURI := fun s => s
    apiKey := "KEY" }

/-- Oracle environment whose job completes with two result handles that
both fetch successfully. -/
def envTwo : GenEnv :=
  { submit := fun _ _ _ =>
      { response :=
          some
            { generatedVideos :=
                some [{ video := { uri := "u1" } },
                  { video := { uri := "u2" } }] } }
    fetch := fun _ =>
      { ok := true, status := 200, statusText := "OK", body := "BODY" }
    toBase64 := fun s => s
    decodeURI := fun s => s
    apiKey := "KEY" }

/-- The gallery record being remixed in the end-to-end remix scenario. -/
def beachVideo : Video :=
  { id := "b1", videoUrl := "blob:beach", title := "Beach",
    description := "Waves on a beach." }

lemma isPrefixList_append_of (p : List Char) :
    ∀ q r : List Char, isPrefixList p q = true →
      isPrefixList p (q ++ r) = true := by
  induction p with
  | nil => intro q r h; cases q <;> simp [isPrefixList]
  | cons a as ih =>
    intro q r h
    cases q with
    | nil => simp [isPrefixList] at h
    | cons b bs =>
      simp [isPrefixList] at h ⊢
      exact ⟨h.1, ih bs r h.2⟩

lemma containsFrom_of_isPrefixList {p s : List Char}
    (h : isPrefixList p s = true) : containsFrom p s = true := by
  cases s <;> simp [containsFrom] <;> simp_all

lemma jsIncludes_of_prefix {s pat : String}
    (h : isPrefixList pat.data s.data = true) : jsIncludes s pat = true :=
  containsFrom_of_isPrefixList h

lemma jsIncludes_empty_pat (s : String) : jsIncludes s "" = true := by
  apply jsIncludes_of_prefix
  cases s.data <;> simp [isPrefixList]

/-- Claim C1: the claim orders the suffixes as base, quality, duration,
then the mask-gated instruction; the code appends the instruction
before the quality and duration suffixes, so on a quality remix of a
masked edit the two prompts differ. -/
theorem prompt_compose_counterexample :
    composedPrompt "A dog" Quality.quality Duration.short true "add a hat"
      ≠ claimedPrompt "A dog" Quality.quality Duration.short true
          "add a hat" := by
  decide

/-- Claim C1 (amended): prompt composition is a pure total function of
the inputs, equal to the base description, then the mask-gated
instruction phrase (present exactly when the mask is active and the
instruction is non-blank after trimming), then the quality suffix, then
the duration suffix. -/
theorem prompt_composition_amended (base instr : String) (q : Quality)
    (d : Duration) (m : Bool) :
    composedPrompt base q d m instr =
      base ++ maskSuffixSpec m instr ++ qualitySuffixSpec q
        ++ durationSuffixSpec d := by
  cases hm : (m && jsTrim instr != "") <;>
    cases q <;> cases d <;>
      simp [composedPrompt, buildRemixPrompt, handleSave, maskSuffixSpec,
        qualitySuffixSpec, durationSuffixSpec, hm]

/-- Claim C6: the drawn mask only gates the instruction text. The saved
description gains the instruction phrase exactly when hasMask is set
and the trimmed instruction is non-empty; with the mask inactive the
saved record is the original unchanged; and the saved record depends on
the mask editor state only through the hasMask boolean, never the drawn
geometry. -/
theorem mask_gates_instruction (v : Video) (instr : String)
    (ms : MaskState) :
    (editPageSave v instr ms).description
        = v.description ++ maskSuffixSpec ms.hasMask instr
      ∧ (ms.hasMask = false → editPageSave v instr ms = v)
      ∧ (∀ ms' : MaskState, ms'.hasMask = ms.hasMask →
          editPageSave v instr ms' = editPageSave v instr ms) := by
  refine ⟨?_, ?_, ?_⟩
  · cases hm : (ms.hasMask && jsTrim instr != "") <;>
      simp [editPageSave, handleSave, maskSuffixSpec, hm]
  · intro h
    simp [editPageSave, handleSave, h]
  · intro ms' h
    simp [editPageSave, h]

/-- Claim C6 witness: with a cleared mask the save leaves the record
unchanged. -/
theorem mask_gates_instruction_witness :
    editPageSave sampleVideo "add a cat"
        { isDrawing := false, hasMask := false, path := [] } = sampleVideo :=
  (mask_gates_instruction sampleVideo "add a cat"
    { isDrawing := false, hasMask := false, path := [] }).2.1 rfl

lemma vidAction_bounds (acts : List VidAction) :
    ∀ v : Int, 1 ≤ v → v ≤ 4 →
      1 ≤ acts.foldl applyVidAction v ∧ acts.foldl applyVidAction v ≤ 4 := by
  induction acts with
  | nil => intro v h1 h4; exact ⟨h1, h4⟩
  | cons a rest ih =>
    intro v h1 h4
    apply ih
    all_goals cases a <;> simp [applyVidAction, min_def, max_def] <;>
      split <;> omega

/-- Claim C7: starting from the initial value 1, every finite sequence
of increment and decrement presses keeps the variation count within
the closed interval from 1 to 4. -/
theorem variation_count_clamped (acts : List VidAction) :
    1 ≤ acts.foldl applyVidAction 1 ∧ acts.foldl applyVidAction 1 ≤ 4 :=
  vidAction_bounds acts 1 (by decide) (by decide)

/-- Claim C8: a record is visible under search string q exactly when its
lowercased title or description contains the lowercased q, and the
empty search string leaves the gallery list unchanged. -/
theorem search_filter_spec (q : String) (vids : List Video) :
    (∀ v, v ∈ filteredVideos q vids ↔
        v ∈ vids ∧ (jsIncludes (jsToLower v.title) (jsToLower q) = true
          ∨ jsIncludes (jsToLower v.description) (jsToLower q) = true))
      ∧ filteredVideos "" vids = vids := by
  constructor
  · intro v
    simp [filteredVideos, List.mem_filter]
  · unfold filteredVideos
    apply List.filter_eq_self.mpr
    intro v hv
    have ht : jsToLower "" = "" := rfl
    rw [ht]
    simp [jsIncludes_empty_pat]

/-- Claim C8 witness: the empty search over a one-record gallery yields
that gallery. -/
theorem search_filter_spec_witness :
    filteredVideos "" [sampleVideo] = [sampleVideo] :=
  (search_filter_spec "" [sampleVideo]).2

/-- Claim C10: uploading a file named clip.mov adds exactly one record,
titled clip with the fixed upload description and the minted object
URL, prepended ahead of the existing gallery records. -/
theorem upload_clip_prepended (st : AppState) (newId objectUrl : String) :
    (handleFileChange newId objectUrl (some { name := "clip.mov" })
        st).videos
      = { id := newId, title := "clip",
          description := "A user-uploaded video.",
          videoUrl := objectUrl } :: st.videos := by
  have h : stripExtension "clip.mov" = "clip" := by decide
  simp [handleFileChange, h]

lemma promiseAll_ok_length {ε α : Type} :
    ∀ (l : List (Except ε α)) (r : List α),
      promiseAll l = Except.ok r → r.length = l.length := by
  intro l
  induction l with
  | nil =>
    intro r h
    simp [promiseAll] at h
    subst h
    rfl
  | cons x xs ih =>
    intro r h
    cases x with
    | error e => simp [promiseAll] at h
    | ok a =>
      cases hxs : promiseAll xs with
      | error e => simp [promiseAll, hxs] at h
      | ok rest =>
        simp [promiseAll, hxs] at h
        subst h
        simp [ih rest hxs]

lemma promiseAll_error_exists {ε α : Type} (P : ε → Prop) :
    ∀ l : List (Except ε α),
      (∀ e, Except.error e ∈ l → P e) →
      (∃ x ∈ l, ∃ e, x = Except.error e) →
      ∃ e, promiseAll l = Except.error e ∧ P e := by
  intro l
  induction l with
  | nil =>
    intro _ hex
    simp at hex
  | cons x xs ih =>
    intro hP hex
    cases x with
    | error e =>
      exact ⟨e, by simp [promiseAll], hP e (List.mem_cons_self _ _)⟩
    | ok a =>
      have hex' : ∃ x ∈ xs, ∃ e, x = Except.error e := by
        obtain ⟨x', hx', e, he⟩ := hex
        rcases List.mem_cons.mp hx' with h | h
        · subst h
          exact absurd he (by simp)
        · exact ⟨x', h, e, he⟩
      obtain ⟨e, he, hPe⟩ :=
        ih (fun e h => hP e (List.mem_cons_of_mem _ h)) hex'
      exact ⟨e, by simp [promiseAll, he], hPe⟩

lemma fetchVideoItem_not_ok (env : GenEnv) (gv : GeneratedVideo)
    (h : (env.fetch (env.decodeURI gv.video.uri ++ "&key="
        ++ env.apiKey)).ok = false) :
    ∃ e, fetchVideoItem env gv = Except.error e :=
  ⟨"Failed to fetch video: "
      ++ toString (env.fetch (env.decodeURI gv.video.uri ++ "&key="
          ++ env.apiKey)).status
      ++ " "
      ++ (env.fetch (env.decodeURI gv.video.uri ++ "&key="
          ++ env.apiKey)).statusText,
    by simp [fetchVideoItem, h]⟩

lemma fetchVideoItem_error_includes (env : GenEnv) (gv : GeneratedVideo)
    (e : String) (h : fetchVideoItem env gv = Except.error e) :
    jsIncludes e "Failed to fetch video" = true := by
  simp only [fetchVideoItem] at h
  split at h
  · exact absurd h (by simp)
  · injection h with h1
    subst h1
    apply jsIncludes_of_prefix
    rw [String.data_append, String.data_append, String.data_append]
    apply isPrefixList_append_of
    apply isPrefixList_append_of
    apply isPrefixList_append_of
    decide

/-- Claim C2: when any item of a completed batch fetches with a non-ok
status, the orchestrator rejects with a Failed-to-fetch-video error and
the gallery list after generateAndAddNewVideos equals the list before:
no partial subset of the batch is added. -/
theorem batch_fetch_failure_no_partial (env : GenEnv)
    (vids : List GeneratedVideo)
    (prompt baseTitle baseDescription : String) (n : Nat) (a : Aspect)
    (idGen : Nat → String) (st : AppState)
    (hresp : (env.submit prompt n a).response
        = some { generatedVideos := some vids })
    (hfail : ∃ gv ∈ vids,
        (env.fetch (env.decodeURI gv.video.uri ++ "&key="
            ++ env.apiKey)).ok = false) :
    (∃ msg, generateVideoFromText env prompt n a = Except.error msg
        ∧ jsIncludes msg "Failed to fetch video" = true)
      ∧ (generateAndAddNewVideos env idGen prompt n baseTitle
          baseDescription a st).videos = st.videos := by
  obtain ⟨gv, hgv, hok⟩ := hfail
  have hne : ¬ vids.length = 0 := by
    intro h0
    rw [List.length_eq_zero] at h0
    subst h0
    simp at hgv
  have hex : ∃ x ∈ vids.map (fetchVideoItem env), ∃ e,
      x = Except.error e := by
    obtain ⟨e, he⟩ := fetchVideoItem_not_ok env gv hok
    exact ⟨_, List.mem_map_of_mem _ hgv, e, he⟩
  have hP : ∀ e, Except.error e ∈ vids.map (fetchVideoItem env) →
      jsIncludes e "Failed to fetch video" = true := by
    intro e he
    obtain ⟨gv', _, hg⟩ := List.mem_map.mp he
    exact fetchVideoItem_error_includes env gv' e hg
  obtain ⟨msg, hmsg, hinc⟩ :=
    promiseAll_error_exists _ (vids.map (fetchVideoItem env)) hP hex
  have hgen : generateVideoFromText env prompt n a
      = Except.error msg := by
    simp [generateVideoFromText, hresp, hne, hmsg]
  refine ⟨⟨msg, hgen, hinc⟩, ?_⟩
  simp [generateAndAddNewVideos, hgen]

/-- Claim C2 witness: a one-item batch whose fetch returns 404 rejects
and leaves the one-record gallery as it was. -/
theorem batch_fetch_failure_no_partial_witness :
    (∃ msg, generateVideoFromText envFetchFail "p" 1 Aspect.sixteenNine
        = Except.error msg
        ∧ jsIncludes msg "Failed to fetch video" = true)
      ∧ (generateAndAddNewVideos envFetchFail (fun i => toString i) "p" 1
          "t" "d" Aspect.sixteenNine initialState).videos
        = initialState.videos :=
  batch_fetch_failure_no_partial envFetchFail
    [{ video := { uri := "u0" } }] "p" "t" "d" 1 Aspect.sixteenNine
    (fun i => toString i) initialState rfl
    ⟨{ video := { uri := "u0" } }, by simp, rfl⟩

/-- Claim C3: a completed job whose result list is absent or empty makes
the orchestrator fail with the message No videos generated, and the
top-level handler classifies that failure with the generation_failed
kind. -/
theorem empty_results_generation_failed (env : GenEnv)
    (prompt baseTitle baseDescription : String) (n : Nat) (a : Aspect)
    (idGen : Nat → String) (st : AppState)
    (h : (env.submit prompt n a).response = none
        ∨ (env.submit prompt n a).response
            = some { generatedVideos := none }
        ∨ (env.submit prompt n a).response
            = some { generatedVideos := some [] }) :
    generateVideoFromText env prompt n a
        = Except.error "No videos generated"
      ∧ (generateAndAddNewVideos env idGen prompt n baseTitle
            baseDescription a st).generationError = some genFailedDetails
      ∧ genFailedDetails.type = ErrorType.generation_failed := by
  have hgen : generateVideoFromText env prompt n a
      = Except.error "No videos generated" := by
    rcases h with h | h | h <;> simp [generateVideoFromText, h]
  refine ⟨hgen, ?_, rfl⟩
  have hinc : jsIncludes "No videos generated" "No videos generated"
      = true := by decide
  simp [generateAndAddNewVideos, hgen, classifyError, hinc]

/-- Claim C3 witness: a job completing with an empty result list yields
the generation_failed banner. -/
theorem empty_results_generation_failed_witness :
    generateVideoFromText envNoResults "p" 1 Aspect.sixteenNine
        = Except.error "No videos generated"
      ∧ (generateAndAddNewVideos envNoResults (fun i => toString i) "p" 1
            "t" "d" Aspect.sixteenNine initialState).generationError
          = some genFailedDetails
      ∧ genFailedDetails.type = ErrorType.generation_failed :=
  empty_results_generation_failed envNoResults "p" "t" "d" 1
    Aspect.sixteenNine (fun i => toString i) initialState
    (Or.inr (Or.inr rfl))

/-- Claim C4: error classification is a pure substring match on the
caught message. A message containing No-videos-generated maps to the
generation_failed kind; otherwise one containing Failed-to-fetch-video
maps to the network kind; every other caught value, a thrown non-Error
included, falls back to the credential banner apiKeyDetails with its
fixed display text, and the unknown kind is never produced. -/
theorem classify_error_spec (err : Option String) :
    ((∃ m, err = some m ∧ jsIncludes m "No videos generated" = true) →
        (classifyError err).type = ErrorType.generation_failed)
      ∧ ((∃ m, err = some m ∧ jsIncludes m "No videos generated" = false
            ∧ jsIncludes m "Failed to fetch video" = true) →
          (classifyError err).type = ErrorType.network)
      ∧ ((err = none
            ∨ ∃ m, err = some m
                ∧ jsIncludes m "No videos generated" = false
                ∧ jsIncludes m "Failed to fetch video" = false) →
          classifyError err = apiKeyDetails)
      ∧ (classifyError err).type ≠ ErrorType.unknown := by
  refine ⟨?_, ?_, ?_, ?_⟩
  · rintro ⟨m, rfl, h⟩
    simp [classifyError, h, genFailedDetails]
  · rintro ⟨m, rfl, h1, h2⟩
    simp [classifyError, h1, h2, networkDetails]
  · rintro (rfl | ⟨m, rfl, h1, h2⟩)
    · rfl
    · simp [classifyError, h1, h2]
  · cases err with
    | none => decide
    | some m =>
      cases h1 : jsIncludes m "No videos generated" <;>
        cases h2 : jsIncludes m "Failed to fetch video" <;>
          simp [classifyError, h1, h2, apiKeyDetails, genFailedDetails,
            networkDetails]

/-- Claim C4 witness: a message matching neither substring falls back to
the credential banner. -/
theorem classify_error_spec_witness :
    classifyError (some "Boom") = apiKeyDetails :=
  (classify_error_spec (some "Boom")).2.2.1
    (Or.inr ⟨"Boom", rfl, by decide, by decide⟩)

/-- Claim C5 (amended): on success the orchestrator returns one playable
source per result handle of the completed job, so the returned length
equals the length of the service-reported result list, which is the
requested count only when the service honors the request. -/
theorem gen_success_length (env : GenEnv) (prompt : String) (n : Nat)
    (a : Aspect) (vids : List GeneratedVideo) (res : List String)
    (hresp : (env.submit prompt n a).response
        = some { generatedVideos := some vids })
    (hok : generateVideoFromText env prompt n a = Except.ok res) :
    res.length = vids.length := by
  simp only [generateVideoFromText, hresp] at hok
  by_cases h0 : vids.length = 0
  · simp [h0] at hok
  · simp [h0] at hok
    have := promiseAll_ok_length (vids.map (fetchVideoItem env)) res hok
    simpa using this

/-- Claim C5 witness: with a one-handle job and a successful fetch the
returned list has the length of the result list. -/
theorem gen_success_length_witness :
    (["BODY"] : List String).length
      = [({ video := { uri := "u1" } } : GeneratedVideo)].length :=
  gen_success_length envOne "p" 1 Aspect.sixteenNine
    [{ video := { uri := "u1" } }] ["BODY"] rfl rfl

/-- Claim C5 counterexample: requesting 2 videos from a service whose
completed job reports a single result handle succeeds with a list of
length 1, so a successful return does not always have the requested
length. -/
theorem gen_count_counterexample :
    ¬ (∀ res, generateVideoFromText envOne "p" 2 Aspect.sixteenNine
        = Except.ok res → res.length = 2) := by
  intro h
  have := h ["BODY"] rfl
  simp at this

/-- Claim C9: remixing the Beach video with 2 requested variations that
both succeed prepends exactly two records, indexed 1/2 then 2/2 in the
remix title, ahead of the untouched previous gallery list. -/
theorem remix_two_variations (st : AppState) (idGen : Nat → String) :
    ∃ v1 v2 : Video,
      (handleSaveEdit envTwo idGen beachVideo
          { numberOfVideos := 2, quality := Quality.fast,
            duration := Duration.medium, aspect := Aspect.sixteenNine }
          st).videos = v1 :: v2 :: st.videos
        ∧ v1.title = "Remix of \"Beach\" (1/2)"
        ∧ v2.title = "Remix of \"Beach\" (2/2)" := by
  refine
    ⟨{ id := idGen 0, videoUrl := "data:video/mp4;base64,BODY",
       title := "Remix of \"Beach\" (1/2)",
       description := "Waves on a beach." },
     { id := idGen 1, videoUrl := "data:video/mp4;base64,BODY",
       title := "Remix of \"Beach\" (2/2)",
       description := "Waves on a beach." }, ?_, rfl, rfl⟩
  rfl
